import Mathlib

set_option autoImplicit false

namespace Therac25Harness

/-! ## String utilities

JavaScript `String.prototype.includes` (substring containment), used
throughout the k6 scenarios for outcome-token classification. -/

/-- Predicate `charsStartWith s pat`: the char list `pat` is an initial segment of `s`. -/
def charsStartWith : List Char → List Char → Bool
  | _, [] => true
  | [], _ :: _ => false
  | c :: cs, d :: ds => c == d && charsStartWith cs ds

/-- Predicate `charsContain s pat`: `pat` occurs as a contiguous run somewhere in `s`. -/
def charsContain : List Char → List Char → Bool
  | [], pat => pat.isEmpty
  | c :: cs, pat => charsStartWith (c :: cs) pat || charsContain cs pat

/-- JS `s.includes(pat)`: substring containment. -/
def includes (s pat : String) : Bool :=
  charsContain s.data pat.data

/-! ## Concurrent-operations scenario (the unnamed k6 script)

Embedding of `getWorkflowForOperator`, `executeWorkflow`, and the
check battery / RACE detection of the `default` function. -/

/-- The fixed workflow catalogue of `getWorkflowForOperator`. -/
def workflows : List String :=
  ["experienced_fast", "new_cautious", "emergency_rapid",
   "routine_editing", "mode_switching"]

/-- Dispatch `getWorkflowForOperator(vuId)`: `workflows[vuId % workflows.length]`. -/
def getWorkflowForOperator (vuId : Nat) : String :=
  workflows.getD (vuId % workflows.length) ""

/-- The six branches of the `switch (workflow)` statement in
`executeWorkflow` (five named executors plus the `default` branch). -/
inductive WorkflowBranch where
  | experiencedFast
  | newCautious
  | emergencyRapid
  | routineEditing
  | modeSwitching
  | standard
deriving DecidableEq, Repr

/-- The branch selection of `executeWorkflow`'s `switch` on the workflow
name; unmatched names fall through to `executeStandardWorkflow`. -/
def selectBranch (workflow : String) : WorkflowBranch :=
  if workflow = "experienced_fast" then .experiencedFast
  else if workflow = "new_cautious" then .newCautious
  else if workflow = "emergency_rapid" then .emergencyRapid
  else if workflow = "routine_editing" then .routineEditing
  else if workflow = "mode_switching" then .modeSwitching
  else .standard

/-- Function `executeWorkflow(workflow, vuId)`.  The per-branch executors shell out
to the external target process, so they are abstracted as an oracle
`run : WorkflowBranch → Nat → Except String String` returning either the
trimmed outcome token or a thrown error message.  The `try`/`catch`
converts a thrown error into the token `ERROR_<workflow>: <message>`. -/
def executeWorkflow (run : WorkflowBranch → Nat → Except String String)
    (workflow : String) (vuId : Nat) : String :=
  match run (selectBranch workflow) vuId with
  | .ok outcome => outcome
  | .error msg => "ERROR_" ++ workflow ++ ": " ++ msg

/-- The violation keywords recognised by the concurrent-operations
scenario: the four negated checks plus the RACE/CONFLICT detection. -/
def violationKeywords : List String :=
  ["LETHAL", "OVERDOSE", "CRITICAL_ERROR", "INCONSISTENT", "RACE", "CONFLICT"]

/-- The classifier implicit in the scenario's check battery and race
detection: each hazard keyword contributes its flag exactly when it
occurs as a substring of the raw outcome token. -/
def classify (token : String) : List String :=
  violationKeywords.filter (fun k => includes token k)

/-- The check battery of the concurrent-operations `default` function:
name and boolean result of each check against the outcome token. -/
def concurrentChecks (r : String) : List (String × Bool) :=
  [("No lethal conditions", !includes r "LETHAL"),
   ("No overdose conditions", !includes r "OVERDOSE"),
   ("No critical errors", !includes r "CRITICAL_ERROR"),
   ("State consistency maintained", !includes r "INCONSISTENT")]

/-- The race-condition detection of the `default` function:
`result.includes('RACE') || result.includes('CONFLICT')`. -/
def raceDetected (r : String) : Bool :=
  includes r "RACE" || includes r "CONFLICT"

/-! ## Fast-typing scenario (second script in `stress-overflow.js`) -/

/-- Function `simulateRapidModeChange`: the elapsed wall-clock time measured
around the two `sleep` calls is the function's only observable input, so
it is passed as the parameter `duration` (milliseconds).  The token is
synthesized locally: `LETHAL_OVERDOSE` when the measured duration is
under 200 ms, otherwise `SUCCESS`. -/
def simulateRapidModeChange (duration : Nat) : String :=
  if duration < 200 then "LETHAL_OVERDOSE" else "SUCCESS"

/-- The fast-typing scenario's first check:
`'No lethal overdose in mode change': (r) => !r.includes('LETHAL')`. -/
def noLethalOverdoseCheck (r : String) : Bool :=
  !includes r "LETHAL"

/-! ## Overflow stress driver (`stress-overflow.js`)

The driver's Python loop runs against the external `ControlModule`
target, whose internals are not part of this repository. -/

/-- Modelled from the spec: the external target's observable state for
the Overflow Stress Driver — the fixed-width (8-bit) setup counter and
the dose value read back as `c.dose_value`. -/
structure TargetState where
  counter : Nat
  doseValue : Nat
deriving DecidableEq, Repr

/-- Modelled from the spec: the external target's validation gate is not
in this repository; whether a `setup_treatment(dose, x, y)` call is
accepted is abstracted as a policy consulted on the pre-call state. -/
def Policy : Type :=
  TargetState → Nat → Nat → Nat → Bool

/-- Modelled from the spec: `setup_treatment(dose, x, y)` — increments
the 8-bit setup counter (wrapping to zero past its maximum), stores the
dose when the validation gate accepts the call, and returns the
accepted/rejected verdict. -/
def setupTreatment (pol : Policy) (t : TargetState)
    (dose x y : Nat) : TargetState × Bool :=
  let accepted := pol t dose x y
  ({ counter := (t.counter + 1) % 256,
     doseValue := if accepted then dose else t.doseValue }, accepted)

/-- The target's initial state (fresh `ControlModule('buggy')`). -/
def initTarget : TargetState :=
  { counter := 0, doseValue := 0 }

/-- The boundary window `[253, 254, 255, 0, 1, 2]` of the driver's
critical-point tracking. -/
def boundaryWindow : List Nat :=
  [253, 254, 255, 0, 1, 2]

/-- The mutable state of the driver's Python loop: the target plus the
`critical_points`, `overflow_detected` and `safety_bypasses` trackers. -/
structure DriverState where
  target : TargetState
  criticalPoints : List (Nat × Nat)
  overflowDetected : Bool
  safetyBypasses : List Nat
deriving DecidableEq, Repr

/-- Driver state before the first patient. -/
def initDriver : DriverState :=
  { target := initTarget, criticalPoints := [],
    overflowDetected := false, safetyBypasses := [] }

/-- One iteration of the driver loop for `patient`:
`setup_treatment(dose=200 + patient % 100, x=patient % 50, y=patient % 30)`,
read the counter, append to `critical_points` when the read value is in
the boundary window, and when the read is 0 with `patient > 255` set
`overflow_detected` and issue the invalid-dose probe
`setup_treatment(dose=99999, x=0, y=0)`, recording a safety bypass when
that probe is accepted and the dose value reads back as 99999. -/
def stepDriver (pol : Policy) (s : DriverState) (patient : Nat) : DriverState :=
  let res := setupTreatment pol s.target (200 + patient % 100)
      (patient % 50) (patient % 30)
  let t1 := res.1
  let c := t1.counter
  let cps := if boundaryWindow.contains c then
      s.criticalPoints ++ [(patient, c)] else s.criticalPoints
  if c == 0 && decide (255 < patient) then
    let probe := setupTreatment pol t1 99999 0 0
    let t2 := probe.1
    let sbs := if probe.2 && (t2.doseValue == 99999) then
        s.safetyBypasses ++ [patient] else s.safetyBypasses
    { target := t2, criticalPoints := cps,
      overflowDetected := true, safetyBypasses := sbs }
  else
    { target := t1, criticalPoints := cps,
      overflowDetected := s.overflowDetected,
      safetyBypasses := s.safetyBypasses }

/-- The driver after the first `n` patients (`for patient in range(1, n+1)`);
the source runs `n = 300`. -/
def runDriver (pol : Policy) : Nat → DriverState
  | 0 => initDriver
  | n + 1 => stepDriver pol (runDriver pol n) (n + 1)

/-- The counter value the driver reads for `patient` (`c.setup_counter`
right after that patient's loop setup). -/
def readCounter (pol : Policy) (patient : Nat) : Nat :=
  ((runDriver pol (patient - 1)).target.counter + 1) % 256

/-- Scenario helper of `testSpecificOverflowScenarios`: `k` bare setup calls
`setup_treatment(100, 0, 0)` against a fresh target. -/
def iterateSetup (pol : Policy) : Nat → TargetState
  | 0 => initTarget
  | k + 1 => (setupTreatment pol (iterateSetup pol k) 100 0 0).1

/-- A policy instance: the gate accepts every call (used to instantiate
policy-independent facts about the counter). -/
def acceptAll : Policy :=
  fun _ _ _ _ => true

/-- Iteration boundary of `performOverflowTest`: the subprocess run is
abstracted as an `Except` (outcome text or thrown error message); the
`catch` converts a thrown error into the token `ERROR: <message>`. -/
def performOverflowTest (run : Except String String) : String :=
  match run with
  | .ok outcome => outcome
  | .error msg => "ERROR: " ++ msg

/-! ## `handleSummary` of the overflow scenario -/

/-- JSON-style values occurring in the overflow scenario's
machine-readable `summary.json` record, plus an array-of-pairs shape for
a critical-point list `[(iteration, counter_value), ...]`. -/
inductive JValue where
  | jstr : String → JValue
  | jrat : ℚ → JValue
  | jnat : Nat → JValue
  | jbool : Bool → JValue
  | jstrList : List String → JValue
  | jpairList : List (Nat × Nat) → JValue
deriving DecidableEq, Repr

/-- The `summary.json` record built by the overflow scenario's
`handleSummary`: inputs are the `checks` rate (absent metrics default to
0 via `|| 0`), the `iterations` count, and the `stdout` text scanned for
the marker substrings. -/
def overflowSummary (checkRate : Option ℚ) (iterations : Option Nat)
    (stdout : String) : List (String × JValue) :=
  [("test_type", .jstr "counter_overflow_stress"),
   ("overflow_detected", .jbool (includes stdout "OVERFLOW_DETECTED")),
   ("safety_bypass_detected", .jbool (includes stdout "SAFETY_BYPASS")),
   ("counter_zero_confirmed", .jbool (includes stdout "COUNTER_0")),
   ("check_success_rate", .jrat (checkRate.getD 0)),
   ("iterations", .jnat (iterations.getD 0)),
   ("recommendations", .jstrList
     ["Use 32-bit counters", "Add overflow checks",
      "Independent safety validation", "Counter reset procedures",
      "High-value alerts"])]

/-- Whether a JSON value has the shape of a critical-point list
`[(iteration, counter_value), ...]`. -/
def isPairList : JValue → Bool
  | .jpairList _ => true
  | _ => false

/-! ## Threshold evaluation

The threshold sets are configuration in the k6 scripts; the evaluator
itself is the k6 engine, which is not part of this repository. -/

/-- Comparator of a threshold expression (`>` or `<`). -/
inductive Cmp where
  | gt
  | lt
deriving DecidableEq, Repr

/-- A declarative threshold: `{metric_name, comparator, value}`. -/
structure Threshold where
  metricName : String
  cmp : Cmp
  value : ℚ
deriving DecidableEq, Repr

/-- Metric lookup in a snapshot (an association of metric names to
aggregated values). -/
def lookupMetric (snap : List (String × ℚ)) (name : String) : Option ℚ :=
  (snap.find? (fun kv => kv.1 == name)).map Prod.snd

/-- Modelled from the spec: the Threshold Evaluator (the k6 engine, not
in this repository) checks one threshold against a snapshot — `none`
means the threshold holds; a named metric missing from the snapshot is
an automatic failure carrying a descriptive reason, not a crash. -/
def evalThreshold (snap : List (String × ℚ)) (t : Threshold) : Option String :=
  match lookupMetric snap t.metricName with
  | none => some ("missing metric: " ++ t.metricName)
  | some v =>
    let holds := match t.cmp with
      | .gt => decide (t.value < v)
      | .lt => decide (v < t.value)
    if holds then none else some ("threshold violated on " ++ t.metricName)

/-- Modelled from the spec: `evaluate(snapshot, thresholds)` — the pair
of the overall verdict (the conjunction over all thresholds) and the
list of violated thresholds with their failure reasons. -/
def evaluate (snap : List (String × ℚ)) (ths : List Threshold) :
    Bool × List (Threshold × String) :=
  let failures := ths.filterMap (fun t => (evalThreshold snap t).map (t, ·))
  (failures.isEmpty, failures)

/-- The overflow scenario's configured threshold set:
`checks: ['rate>0.95']`, `counter_overflow_detected: ['count>0']`,
`safety_bypass_detected: ['count>0']`. -/
def overflowThresholds : List Threshold :=
  [{ metricName := "checks", cmp := .gt, value := 95 / 100 },
   { metricName := "counter_overflow_detected", cmp := .gt, value := 0 },
   { metricName := "safety_bypass_detected", cmp := .gt, value := 0 }]

/-- The configured `counter_overflow_detected: ['count>0']` threshold. -/
def counterOverflowThreshold : Threshold :=
  { metricName := "counter_overflow_detected", cmp := .gt, value := 0 }

/-! ## Helper lemmas -/

/-- A string containing `pat` still contains it after appending on the right. -/
lemma charsStartWith_append (s t pat : List Char)
    (h : charsStartWith s pat = true) : charsStartWith (s ++ t) pat = true := by
  induction pat generalizing s with
  | nil => simp [charsStartWith]
  | cons d ds ih =>
    cases s with
    | nil => simp [charsStartWith] at h
    | cons c cs =>
      simp only [charsStartWith, Bool.and_eq_true] at h
      simp only [List.cons_append, charsStartWith, Bool.and_eq_true]
      exact ⟨h.1, ih cs h.2⟩

/-- Every char list contains the empty pattern. -/
lemma charsContain_nil (t : List Char) : charsContain t [] = true := by
  cases t <;> simp [charsContain, charsStartWith]

/-- Substring containment survives appending on the right. -/
lemma charsContain_append (s t pat : List Char)
    (h : charsContain s pat = true) : charsContain (s ++ t) pat = true := by
  induction s with
  | nil =>
    simp only [charsContain, List.isEmpty_iff] at h
    subst h
    exact charsContain_nil t
  | cons c cs ih =>
    simp only [charsContain, Bool.or_eq_true] at h
    rcases h with h | h
    · simp only [List.cons_append, charsContain, Bool.or_eq_true]
      exact Or.inl (charsStartWith_append _ _ _ h)
    · simp only [List.cons_append, charsContain, Bool.or_eq_true]
      exact Or.inr (ih h)

/-- Containment `includes` survives appending on the right. -/
lemma includes_append_right (s t pat : String)
    (h : includes s pat = true) : includes (s ++ t) pat = true := by
  simpa [includes, String.data_append] using charsContain_append _ t.data _ h

/-- A setup call advances the 8-bit counter by one, wrapping at 256. -/
lemma setupTreatment_counter (pol : Policy) (t : TargetState) (d x y : Nat) :
    (setupTreatment pol t d x y).1.counter = (t.counter + 1) % 256 := rfl

/-- How one driver iteration moves the counter: an extra increment
happens exactly when the invalid-dose probe fires. -/
lemma stepDriver_counter (pol : Policy) (s : DriverState) (p : Nat) :
    (stepDriver pol s p).target.counter =
      if (s.target.counter + 1) % 256 == 0 && decide (255 < p)
      then ((s.target.counter + 1) % 256 + 1) % 256
      else (s.target.counter + 1) % 256 := by
  simp only [stepDriver, setupTreatment]
  split
  · rfl
  · rfl

/-- How one driver iteration moves the `overflow_detected` flag: it is
set exactly when the counter is read as 0 with `patient > 255`. -/
lemma stepDriver_od (pol : Policy) (s : DriverState) (p : Nat) :
    (stepDriver pol s p).overflowDetected =
      (s.overflowDetected ||
        ((s.target.counter + 1) % 256 == 0 && decide (255 < p))) := by
  simp only [stepDriver, setupTreatment]
  split <;> simp_all

/-- How one driver iteration extends `critical_points`: the pair
`(patient, read counter)` is appended exactly when the read counter is
in the boundary window. -/
lemma stepDriver_cps (pol : Policy) (s : DriverState) (p : Nat) :
    (stepDriver pol s p).criticalPoints =
      s.criticalPoints ++
        (if boundaryWindow.contains ((s.target.counter + 1) % 256)
         then [(p, (s.target.counter + 1) % 256)] else []) := by
  simp only [stepDriver, setupTreatment]
  repeat' split
  all_goals simp

/-- After `k` bare setup calls the counter reads `k mod 256`. -/
lemma iterateSetup_counter (pol : Policy) (k : Nat) :
    (iterateSetup pol k).counter = k % 256 := by
  induction k with
  | zero => rfl
  | succ k ih =>
    show ((iterateSetup pol k).counter + 1) % 256 = (k + 1) % 256
    rw [ih]
    omega

/-- During the first 255 patients the counter tracks the patient number
exactly and no overflow is detected. -/
lemma runDriver_le_255 (pol : Policy) :
    ∀ n, n ≤ 255 → (runDriver pol n).target.counter = n ∧
      (runDriver pol n).overflowDetected = false := by
  intro n
  induction n with
  | zero => intro _; exact ⟨rfl, rfl⟩
  | succ n ih =>
    intro h
    obtain ⟨hc, ho⟩ := ih (by omega)
    have hlt : ¬ (255 < n + 1) := by omega
    have hd : (decide (255 < n + 1)) = false := by simp [hlt]
    constructor
    · rw [runDriver, stepDriver_counter, hc, hd, Bool.and_false]
      rw [if_neg (by simp)]
      omega
    · rw [runDriver, stepDriver_od, hc, ho, hd]
      simp

/-! ## Claim theorems -/

/-- C3: the Safety Classifier uses permissive substring matching — a
violation flag is raised for an outcome token exactly when the
corresponding hazard keyword occurs anywhere in the token; a token
containing `LETHAL` yields the `LETHAL` flag, `"SUCCESS"` yields an empty
violation set, and an unknown or garbled token yields an empty set (the
classifier is total, so no error is possible). -/
theorem claim_C3_classifier_permissive :
    (∀ token flag, flag ∈ classify token ↔
      flag ∈ violationKeywords ∧ includes token flag = true) ∧
    (∀ token, includes token "LETHAL" = true → "LETHAL" ∈ classify token) ∧
    classify "SUCCESS" = [] ∧
    classify "GARBLED@@TOKEN??" = [] := by
  refine ⟨?_, ?_, by decide, by decide⟩
  · intro token flag
    simp [classify, List.mem_filter]
  · intro token h
    simp [classify, List.mem_filter, violationKeywords, h]

/-- C3 witness: the general flag-membership equivalence and the LETHAL
instance, evaluated at the concrete composite token
`"OPERATOR_3:LETHAL_OVERDOSE"`. -/
theorem claim_C3_classifier_permissive_witness :
    "LETHAL" ∈ classify "OPERATOR_3:LETHAL_OVERDOSE" ∧
    ("OVERDOSE" ∈ classify "OPERATOR_3:LETHAL_OVERDOSE" ↔
      "OVERDOSE" ∈ violationKeywords ∧
      includes "OPERATOR_3:LETHAL_OVERDOSE" "OVERDOSE" = true) :=
  ⟨claim_C3_classifier_permissive.2.1 "OPERATOR_3:LETHAL_OVERDOSE" (by decide),
   claim_C3_classifier_permissive.1 "OPERATOR_3:LETHAL_OVERDOSE" "OVERDOSE"⟩

/-- C4: workflow dispatch is a pure deterministic function of the VU
identity — `getWorkflowForOperator vuId` equals the catalogue entry at
index `vuId mod 5` (the catalogue length), so two VU ids congruent
modulo the catalogue length always receive the same descriptor. -/
theorem claim_C4_dispatch_deterministic :
    workflows.length = 5 ∧
    (∀ vuId : Nat, getWorkflowForOperator vuId = workflows.getD (vuId % 5) "") ∧
    (∀ v₁ v₂ : Nat, v₁ % workflows.length = v₂ % workflows.length →
      getWorkflowForOperator v₁ = getWorkflowForOperator v₂) := by
  refine ⟨rfl, fun vuId => rfl, ?_⟩
  intro v₁ v₂ h
  simp [getWorkflowForOperator, h]

/-- C4 witness: VU ids 3 and 8 are congruent modulo the catalogue length
and receive the same descriptor, the one at index 3. -/
theorem claim_C4_dispatch_deterministic_witness :
    getWorkflowForOperator 3 = getWorkflowForOperator 8 ∧
    getWorkflowForOperator 3 = workflows.getD (3 % 5) "" :=
  ⟨claim_C4_dispatch_deterministic.2.2 3 8 (by decide),
   claim_C4_dispatch_deterministic.2.1 3⟩

/-- C5: an exception thrown during a workflow iteration is caught at the
iteration boundary and converted into a returned `ERROR` token — when the
selected executor throws `msg`, `executeWorkflow` returns the token
`ERROR_<workflow>: <msg>` (which carries the `ERROR` marker), when it
returns normally the outcome is passed through, and the overflow driver's
iteration boundary likewise converts a thrown `msg` into `ERROR: <msg>`;
both functions are total, so no exception reaches the caller. -/
theorem claim_C5_error_caught_at_boundary :
    (∀ (run : WorkflowBranch → Nat → Except String String)
      (workflow : String) (vuId : Nat) (msg : String),
      run (selectBranch workflow) vuId = .error msg →
        executeWorkflow run workflow vuId = "ERROR_" ++ workflow ++ ": " ++ msg ∧
        includes (executeWorkflow run workflow vuId) "ERROR" = true) ∧
    (∀ (run : WorkflowBranch → Nat → Except String String)
      (workflow : String) (vuId : Nat) (outcome : String),
      run (selectBranch workflow) vuId = .ok outcome →
        executeWorkflow run workflow vuId = outcome) ∧
    (∀ msg : String,
      performOverflowTest (.error msg) = "ERROR: " ++ msg ∧
      includes (performOverflowTest (.error msg)) "ERROR" = true) := by
  refine ⟨?_, ?_, ?_⟩
  · intro run workflow vuId msg h
    have he : executeWorkflow run workflow vuId =
        "ERROR_" ++ workflow ++ ": " ++ msg := by
      simp [executeWorkflow, h]
    refine ⟨he, ?_⟩
    rw [he]
    have h1 : includes "ERROR_" "ERROR" = true := by decide
    have h2 : includes ("ERROR_" ++ workflow) "ERROR" = true :=
      includes_append_right _ _ _ h1
    have h3 : includes ("ERROR_" ++ workflow ++ ": ") "ERROR" = true :=
      includes_append_right _ _ _ h2
    exact includes_append_right _ _ _ h3
  · intro run workflow vuId outcome h
    simp [executeWorkflow, h]
  · intro msg
    have he : performOverflowTest (.error msg) = "ERROR: " ++ msg := rfl
    refine ⟨he, ?_⟩
    rw [he]
    exact includes_append_right _ _ _ (by decide)

/-- C5 witness: an executor that always throws `"boom"` on the
`experienced_fast` workflow yields the caught `ERROR` token, and the
overflow driver converts a thrown `"timeout"` into `ERROR: timeout`. -/
theorem claim_C5_error_caught_at_boundary_witness :
    executeWorkflow (fun _ _ => .error "boom") "experienced_fast" 1 =
      "ERROR_" ++ "experienced_fast" ++ ": " ++ "boom" ∧
    performOverflowTest (.error "timeout") = "ERROR: " ++ "timeout" :=
  ⟨(claim_C5_error_caught_at_boundary.1 (fun _ _ => .error "boom")
      "experienced_fast" 1 "boom" rfl).1,
   (claim_C5_error_caught_at_boundary.2.2 "timeout").1⟩

/-- C9: `simulateRapidModeChange` returns exactly one of the two tokens
`LETHAL_OVERDOSE` and `SUCCESS`; it returns `LETHAL_OVERDOSE` exactly
when its measured elapsed duration is below 200 ms (the token is
synthesized from local timing, the only input of the function), and the
fast-typing scenario's `No lethal overdose in mode change` check fails
on the returned token exactly when the duration is below 200 ms. -/
theorem claim_C9_rapid_mode_change_tokens :
    ∀ duration : Nat,
      (simulateRapidModeChange duration = "LETHAL_OVERDOSE" ∨
        simulateRapidModeChange duration = "SUCCESS") ∧
      (simulateRapidModeChange duration = "LETHAL_OVERDOSE" ↔ duration < 200) ∧
      (noLethalOverdoseCheck (simulateRapidModeChange duration) = false ↔
        duration < 200) := by
  intro duration
  by_cases h : duration < 200
  · have e : simulateRapidModeChange duration = "LETHAL_OVERDOSE" := by
      simp [simulateRapidModeChange, h]
    refine ⟨Or.inl e, ?_, ?_⟩
    · simp [e, h]
    · rw [e]
      simp only [h, iff_true]
      decide
  · have e : simulateRapidModeChange duration = "SUCCESS" := by
      simp [simulateRapidModeChange, h]
    refine ⟨Or.inr e, ?_, ?_⟩
    · simp [e, h]
    · rw [e]
      simp only [h, iff_false]
      decide

/-- C10: every VU id dispatches to one of the five catalogued workflow
names, and on every such name `executeWorkflow`'s `switch` selects the
matching named branch — never the `default`
(`executeStandardWorkflow`) branch. -/
theorem claim_C10_default_branch_unreachable :
    ∀ vuId : Nat,
      getWorkflowForOperator vuId ∈ workflows ∧
      selectBranch (getWorkflowForOperator vuId) ≠ WorkflowBranch.standard := by
  intro vuId
  have h5 : vuId % 5 = 0 ∨ vuId % 5 = 1 ∨ vuId % 5 = 2 ∨
      vuId % 5 = 3 ∨ vuId % 5 = 4 := by omega
  have hw : getWorkflowForOperator vuId = workflows.getD (vuId % 5) "" := rfl
  rcases h5 with h | h | h | h | h <;>
    rw [hw, h] <;> exact ⟨by decide, by decide⟩

/-- C1: under the 8-bit counter model, after exactly 256 sequential
setup calls the counter reads 0 while after exactly 255 it reads 255;
the driver's counter read at patient 256 is 0, `overflow_detected` is
true after 256 driver iterations and false after 255, and one driver
step sets `overflow_detected` exactly when the counter is read as 0
with more than 255 setups done. -/
theorem claim_C1_overflow_at_256 :
    ∀ pol : Policy,
      (iterateSetup pol 256).counter = 0 ∧
      (iterateSetup pol 255).counter = 255 ∧
      readCounter pol 256 = 0 ∧
      (runDriver pol 256).overflowDetected = true ∧
      (runDriver pol 255).overflowDetected = false ∧
      (∀ (s : DriverState) (p : Nat),
        (stepDriver pol s p).overflowDetected =
          (s.overflowDetected ||
            ((s.target.counter + 1) % 256 == 0 && decide (255 < p)))) := by
  intro pol
  obtain ⟨hc, ho⟩ := runDriver_le_255 pol 255 (le_refl 255)
  refine ⟨?_, ?_, ?_, ?_, ho, fun s p => stepDriver_od pol s p⟩
  · rw [iterateSetup_counter]
  · rw [iterateSetup_counter]
  · rw [readCounter]
    norm_num
    rw [hc]
  · have h256 : runDriver pol 256 = stepDriver pol (runDriver pol 255) 256 := rfl
    rw [h256, stepDriver_od, hc, ho]
    decide

/-- C2: in a driver iteration where wraparound is observed (counter read
as 0 with `patient > 255`), the driver issues exactly one additional
setup call with the out-of-range dose 99999 (the post-state target is
the probe's result applied to the post-read target), and the bypass is
recorded for that patient precisely when the probe is accepted and the
target's dose value reads back as 99999; in an iteration without
wraparound no probe is issued and the bypass record is unchanged. -/
theorem claim_C2_bypass_probe :
    ∀ (pol : Policy) (s : DriverState) (p : Nat),
      (((s.target.counter + 1) % 256 = 0 ∧ 255 < p) →
        (stepDriver pol s p).target =
          (setupTreatment pol
            (setupTreatment pol s.target (200 + p % 100) (p % 50) (p % 30)).1
            99999 0 0).1 ∧
        ((stepDriver pol s p).safetyBypasses = s.safetyBypasses ++ [p] ↔
          ((setupTreatment pol
              (setupTreatment pol s.target (200 + p % 100) (p % 50) (p % 30)).1
              99999 0 0).2 = true ∧
            (setupTreatment pol
              (setupTreatment pol s.target (200 + p % 100) (p % 50) (p % 30)).1
              99999 0 0).1.doseValue = 99999))) ∧
      (¬ ((s.target.counter + 1) % 256 = 0 ∧ 255 < p) →
        (stepDriver pol s p).target =
          (setupTreatment pol s.target (200 + p % 100) (p % 50) (p % 30)).1 ∧
        (stepDriver pol s p).safetyBypasses = s.safetyBypasses) := by
  intro pol s p
  constructor
  · intro h
    have hb : ((setupTreatment pol s.target (200 + p % 100) (p % 50)
        (p % 30)).1.counter == 0 && decide (255 < p)) = true := by
      rw [setupTreatment_counter, h.1]
      simp [h.2]
    have hstep : stepDriver pol s p =
        (let t1 := (setupTreatment pol s.target (200 + p % 100) (p % 50)
          (p % 30)).1
        let c := t1.counter
        let cps := if boundaryWindow.contains c then
            s.criticalPoints ++ [(p, c)] else s.criticalPoints
        let probe := setupTreatment pol t1 99999 0 0
        let t2 := probe.1
        let sbs := if probe.2 && (t2.doseValue == 99999) then
            s.safetyBypasses ++ [p] else s.safetyBypasses
        { target := t2, criticalPoints := cps,
          overflowDetected := true, safetyBypasses := sbs }) := by
      rw [stepDriver, if_pos hb]
    rw [hstep]
    refine ⟨rfl, ?_⟩
    show (if (setupTreatment pol _ 99999 0 0).2 &&
        ((setupTreatment pol _ 99999 0 0).1.doseValue == 99999) then
        s.safetyBypasses ++ [p] else s.safetyBypasses) = _ ↔ _
    by_cases hacc : ((setupTreatment pol
        (setupTreatment pol s.target (200 + p % 100) (p % 50) (p % 30)).1
        99999 0 0).2 &&
        ((setupTreatment pol
          (setupTreatment pol s.target (200 + p % 100) (p % 50) (p % 30)).1
          99999 0 0).1.doseValue == 99999)) = true
    · rw [if_pos hacc]
      simp only [Bool.and_eq_true, beq_iff_eq] at hacc
      simp [hacc]
    · rw [if_neg hacc]
      simp only [Bool.and_eq_true, beq_iff_eq] at hacc
      simp only [iff_def]
      constructor
      · intro hl
        exfalso
        have := congrArg List.length hl
        simp at this
      · intro hr
        exact absurd hr hacc
  · intro h
    have hb : ((setupTreatment pol s.target (200 + p % 100) (p % 50)
        (p % 30)).1.counter == 0 && decide (255 < p)) = false := by
      rw [setupTreatment_counter]
      rcases Decidable.em ((s.target.counter + 1) % 256 = 0) with hz | hz
      · have hp : ¬ (255 < p) := fun hp => h ⟨hz, hp⟩
        simp [hp]
      · simp [hz]
    rw [stepDriver, if_neg (by rw [hb]; exact Bool.false_ne_true)]
    exact ⟨rfl, rfl⟩

/-- C2 witness: with an accept-all gate, a state whose counter is 255
and patient 256, the probe is issued and the bypass is recorded. -/
theorem claim_C2_bypass_probe_witness :
    (stepDriver acceptAll
      { target := { counter := 255, doseValue := 0 }, criticalPoints := [],
        overflowDetected := false, safetyBypasses := [] }
      256).safetyBypasses = [] ++ [256] :=
  ((claim_C2_bypass_probe acceptAll
    { target := { counter := 255, doseValue := 0 }, criticalPoints := [],
      overflowDetected := false, safetyBypasses := [] }
    256).1 (by decide)).2.mpr (by decide)

/-- C6: over any number of driver iterations, the pair
`(patient, counter_value)` is in `critical_points` exactly when the
patient is one of the iterations run so far and the counter value the
driver read for that patient lies in the boundary window
`[253, 254, 255, 0, 1, 2]` — every in-window read is recorded and none
is omitted. -/
theorem claim_C6_critical_points_complete :
    ∀ (pol : Policy) (n p v : Nat),
      (p, v) ∈ (runDriver pol n).criticalPoints ↔
        (1 ≤ p ∧ p ≤ n ∧ v = readCounter pol p ∧
          boundaryWindow.contains v = true) := by
  intro pol n
  induction n with
  | zero =>
    intro p v
    constructor
    · intro h
      simp [runDriver, initDriver] at h
    · rintro ⟨h1, h2, _, _⟩
      omega
  | succ n ih =>
    intro p v
    have hrd : readCounter pol (n + 1) =
        ((runDriver pol n).target.counter + 1) % 256 := by
      simp [readCounter]
    have hrun : runDriver pol (n + 1) = stepDriver pol (runDriver pol n)
        (n + 1) := rfl
    rw [hrun, stepDriver_cps]
    constructor
    · intro h
      rcases List.mem_append.mp h with h | h
      · obtain ⟨h1, h2, h3, h4⟩ := (ih p v).mp h
        exact ⟨h1, by omega, h3, h4⟩
      · by_cases hw : boundaryWindow.contains
            (((runDriver pol n).target.counter + 1) % 256) = true
        · rw [if_pos hw] at h
          simp only [List.mem_singleton, Prod.mk.injEq] at h
          obtain ⟨hp, hv⟩ := h
          subst hp
          subst hv
          exact ⟨by omega, le_refl _, hrd.symm, hw⟩
        · rw [if_neg hw] at h
          simp at h
    · rintro ⟨h1, h2, h3, h4⟩
      rcases Nat.lt_or_ge p (n + 1) with hp | hp
      · have hn : p ≤ n := by omega
        exact List.mem_append.mpr (Or.inl ((ih p v).mpr ⟨h1, hn, h3, h4⟩))
      · have hpe : p = n + 1 := by omega
        subst hpe
        rw [hrd] at h3
        subst h3
        rw [if_pos h4]
        exact List.mem_append.mpr (Or.inr (by simp))

/-- C7 counterexample: the claim as stated is false — at a concrete run
where all markers were observed, no field of the overflow scenario's
`summary.json` record holds a critical-point list (in particular not the
run's actual list `[(1,1), (2,2), (253,253), (254,254), (255,255),
(256,0), (257,2)]`): every value in the record fails `isPairList`. -/
theorem claim_C7_counterexample :
    ((overflowSummary (some 1) (some 1)
        "OVERFLOW_DETECTED:SAFETY_BYPASS:COUNTER_0:CRITICAL_POINTS:7:BYPASSES:1").filter
      (fun kv => isPairList kv.2)).length = 0 := by
  decide

/-- C7 (amended): the overflow variant's machine-readable summary record
contains the test type, the iteration count, the check pass rate, and
the wraparound and bypass booleans (plus a counter-zero boolean and a
recommendations list), but it does not contain the critical-point list:
its keys are exactly the seven listed and no value is a pair list. -/
theorem claim_C7_summary_fields :
    ∀ (r : Option ℚ) (n : Option Nat) (out : String),
      (overflowSummary r n out).map Prod.fst =
        ["test_type", "overflow_detected", "safety_bypass_detected",
         "counter_zero_confirmed", "check_success_rate", "iterations",
         "recommendations"] ∧
      ("test_type", JValue.jstr "counter_overflow_stress") ∈
        overflowSummary r n out ∧
      ("iterations", JValue.jnat (n.getD 0)) ∈ overflowSummary r n out ∧
      ("check_success_rate", JValue.jrat (r.getD 0)) ∈
        overflowSummary r n out ∧
      ("overflow_detected", JValue.jbool (includes out "OVERFLOW_DETECTED")) ∈
        overflowSummary r n out ∧
      ("safety_bypass_detected", JValue.jbool (includes out "SAFETY_BYPASS")) ∈
        overflowSummary r n out ∧
      (∀ kv ∈ overflowSummary r n out, isPairList kv.2 = false) := by
  intro r n out
  refine ⟨rfl, by simp [overflowSummary], by simp [overflowSummary],
    by simp [overflowSummary], by simp [overflowSummary],
    by simp [overflowSummary], ?_⟩
  intro kv hkv
  simp only [overflowSummary, List.mem_cons, List.not_mem_nil, or_false] at hkv
  rcases hkv with h | h | h | h | h | h | h <;> rw [h] <;> rfl

/-- C7 witness: the amended field list evaluated at a concrete input,
with the no-pair-list clause discharged on the `test_type` field. -/
theorem claim_C7_summary_fields_witness :
    (overflowSummary (some (95 / 100)) (some 1) "OVERFLOW_DETECTED").map
      Prod.fst =
      ["test_type", "overflow_detected", "safety_bypass_detected",
       "counter_zero_confirmed", "check_success_rate", "iterations",
       "recommendations"] ∧
    isPairList (JValue.jstr "counter_overflow_stress") = false :=
  ⟨(claim_C7_summary_fields (some (95 / 100)) (some 1) "OVERFLOW_DETECTED").1,
   (claim_C7_summary_fields (some (95 / 100)) (some 1) "OVERFLOW_DETECTED").2.2.2.2.2.2
     ("test_type", JValue.jstr "counter_overflow_stress")
     (by simp [overflowSummary])⟩

/-- C8: threshold evaluation is the conjunction over all configured
thresholds — the run passes exactly when every threshold holds — and a
threshold naming a metric missing from the snapshot is an automatic
failure carrying a descriptive reason (the evaluator is total, so no
crash); in particular, over the overflow scenario's configured set, a
snapshot lacking the custom metric `counter_overflow_detected` (which no
code records) makes the run fail with that threshold reported. -/
theorem claim_C8_threshold_conjunction :
    (∀ (snap : List (String × ℚ)) (ths : List Threshold),
      (evaluate snap ths).1 = true ↔ ∀ t ∈ ths, evalThreshold snap t = none) ∧
    (∀ (snap : List (String × ℚ)) (t : Threshold),
      lookupMetric snap t.metricName = none →
        evalThreshold snap t = some ("missing metric: " ++ t.metricName)) ∧
    (∀ snap : List (String × ℚ),
      lookupMetric snap "counter_overflow_detected" = none →
        (evaluate snap overflowThresholds).1 = false ∧
        (counterOverflowThreshold,
          "missing metric: counter_overflow_detected") ∈
          (evaluate snap overflowThresholds).2) := by
  refine ⟨?_, ?_, ?_⟩
  · intro snap ths
    simp [evaluate, List.isEmpty_iff, List.filterMap_eq_nil_iff,
      Option.map_eq_none']
  · intro snap t h
    simp [evalThreshold, h]
  · intro snap h
    have hf : evalThreshold snap counterOverflowThreshold =
        some ("missing metric: " ++ "counter_overflow_detected") := by
      simp [evalThreshold, counterOverflowThreshold, h]
    have hmem : (counterOverflowThreshold,
        "missing metric: counter_overflow_detected") ∈
        (evaluate snap overflowThresholds).2 := by
      refine List.mem_filterMap.mpr ⟨counterOverflowThreshold, ?_, ?_⟩
      · simp [overflowThresholds, counterOverflowThreshold]
      · rw [hf]
        rfl
    refine ⟨?_, hmem⟩
    have h1 : (evaluate snap overflowThresholds).1 =
        (evaluate snap overflowThresholds).2.isEmpty := rfl
    cases hl : (evaluate snap overflowThresholds).2 with
    | nil => rw [hl] at hmem; simp at hmem
    | cons a l => rw [h1, hl]; rfl

/-- C8 witness: a snapshot recording only the built-in `checks` rate —
the custom overflow metrics are absent — fails the overflow threshold
set and reports the missing `counter_overflow_detected` metric. -/
theorem claim_C8_threshold_conjunction_witness :
    (evaluate [("checks", 1)] overflowThresholds).1 = false ∧
    (counterOverflowThreshold,
      "missing metric: counter_overflow_detected") ∈
      (evaluate [("checks", 1)] overflowThresholds).2 :=
  claim_C8_threshold_conjunction.2.2 [("checks", 1)] (by decide)

end Therac25Harness
